import Mathlib

set_option maxRecDepth 100000

/-!
Shallow embedding of the posts-manager view (`src/src/views/AboutView.vue`)
of the `infradon2-SQL` repository, together with a model of the external
document store it calls into (the contract of spec §4.1).

Conventions of the embedding:
* ISO-8601 timestamp strings are modelled as natural numbers whose order
  agrees with time order; each call of `createTimestamp` in the source is an
  independent clock read, so operations take the values of those reads as
  explicit arguments (the environment guarantees they are monotone over time).
* JavaScript strings are Lean `String`s; `trim` and `length` are the Lean
  operations of the same names (the sources only ever compare lengths of
  ASCII strings, where the two semantics agree).
* Asynchronous store calls are modelled as pure calls into the store model;
  where a claim is about a failing external call, the call's outcome is an
  explicit argument of the embedded operation.
-/

/-- `attributes` of a post document (`AboutView.vue`, `interface Post`). -/
structure Attributes where
  creation_date : Nat
  modified : Nat
deriving Repr, DecidableEq

/-- A post document at the store boundary (`AboutView.vue`, `interface Post`):
`_id`, optional `_rev`, `title`, `content`, `attributes`. -/
structure Post where
  _id : Nat
  _rev : Option Nat
  title : String
  content : String
  attributes : Attributes
deriving Repr, DecidableEq

/-- Errors of the store contract (spec §4.1 / §7): `Conflict` and `NotFound`. -/
inductive DbErr where
  | conflict
  | notFound
deriving Repr, DecidableEq

/-- Modelled from the spec: the message text carried by a store error, used
only to build the UI's human-readable error strings (`err.message`). -/
def DbErr.message : DbErr → String
  | .conflict => "Document update conflict"
  | .notFound => "missing"

/-- Equality of store-call results is decidable (used to evaluate concrete
runs of the model). -/
instance {ε α : Type} [DecidableEq ε] [DecidableEq α] : DecidableEq (Except ε α) := fun x y =>
  match x, y with
  | .ok a, .ok b =>
      if h : a = b then isTrue (by rw [h]) else isFalse (by intro hh; cases hh; exact h rfl)
  | .error e, .error f =>
      if h : e = f then isTrue (by rw [h]) else isFalse (by intro hh; cases hh; exact h rfl)
  | .ok _, .error _ => isFalse (by intro hh; cases hh)
  | .error _, .ok _ => isFalse (by intro hh; cases hh)

/-- Modelled from the spec (§4.1): the external document store, a flat
collection of revisioned documents keyed by `_id`; the UI treats it as a
black box with `get`/`put`/`remove`/`allDocs`. Stored documents carry
`_rev = some r`. -/
structure DB where
  docs : List Post
deriving Repr, DecidableEq

/-- Modelled from the spec (§4.1): `get(id) -> Post | NotFound`. -/
def DB.get (db : DB) (id : Nat) : Except DbErr Post :=
  match db.docs.find? (fun p => p._id = id) with
  | some p => .ok p
  | none => .error .notFound

/-- Modelled from the spec (§4.1): `put(post) -> new revision | Conflict`;
a conflict arises when the supplied revision does not match the store's
current revision for that `_id` (a fresh document must carry no revision). -/
def DB.put (db : DB) (p : Post) : Except DbErr DB :=
  match db.docs.find? (fun q => q._id = p._id) with
  | none =>
    match p._rev with
    | none => .ok ⟨{ p with _rev := some 1 } :: db.docs⟩
    | some _ => .error .conflict
  | some q =>
    if p._rev = q._rev then
      .ok ⟨db.docs.map (fun r => if r._id = p._id then { p with _rev := some (q._rev.getD 0 + 1) } else r)⟩
    else .error .conflict

/-- Modelled from the spec (§4.1): `remove(id, revision) -> ok | Conflict | NotFound`. -/
def DB.remove (db : DB) (id : Nat) (rev : Option Nat) : Except DbErr DB :=
  match db.docs.find? (fun q => q._id = id) with
  | none => .error .notFound
  | some q =>
    if rev = q._rev then .ok ⟨db.docs.filter (fun r => ¬ r._id = id)⟩
    else .error .conflict

/-- Modelled from the spec (§4.1): `listAll()` (`allDocs` in the source)
returns the store's documents in store order; the UI re-sorts client-side. -/
def DB.allDocs (db : DB) : List Post :=
  db.docs

/-- A handle on the local store: the store plus its `close()` state. -/
structure LocalHandle where
  db : DB
  closed : Bool
deriving Repr, DecidableEq

/-- A handle on the remote store; the UI only ever opens and closes it
(replication itself is the external session's business). -/
structure RemoteHandle where
  closed : Bool
deriving Repr, DecidableEq

/-- The replication session handle; the UI only ever calls `cancel()` on it. -/
structure SyncHandle where
  cancelled : Bool
deriving Repr, DecidableEq

/-- The `newPost` form model (`data()`): a `title` and a `content` field. -/
structure NewPost where
  title : String
  content : String
deriving Repr, DecidableEq

/-- The component state (`data()` of `AboutView.vue`). -/
structure ViewState where
  localDb : Option LocalHandle
  remoteDb : Option RemoteHandle
  sync : Option SyncHandle
  posts : List Post
  newPost : NewPost
  isEditing : Bool
  currentEditId : Option Nat
  error : Option String
  isLoading : Bool
  pageSize : Nat
  currentPage : Nat
deriving Repr, DecidableEq

/-- The initial component state (`data()`): no handles, empty list, empty
form, not editing, no error, `pageSize = 10`, `currentPage = 1`. -/
def initialState : ViewState where
  localDb := none
  remoteDb := none
  sync := none
  posts := []
  newPost := ⟨"", ""⟩
  isEditing := false
  currentEditId := none
  error := none
  isLoading := false
  pageSize := 10
  currentPage := 1

/-- Comparator of `sortedPosts`: `a` comes before `b` when `a`'s
`creation_date` is the later one (descending sort, JS stable sort). -/
def byCreationDesc (a b : Post) : Bool :=
  b.attributes.creation_date ≤ a.attributes.creation_date

/-- Computed `sortedPosts`: the posts sorted by `creation_date` descending
(`[...this.posts].sort((a, b) => time(b) - time(a))`; JS `sort` is stable,
as is `mergeSort`). -/
def ViewState.sortedPosts (s : ViewState) : List Post :=
  s.posts.mergeSort byCreationDesc

/-- The page-`p` slice of the sorted list:
`sortedPosts.slice((p - 1) * pageSize, (p - 1) * pageSize + pageSize)`. -/
def ViewState.pagePosts (s : ViewState) (p : Nat) : List Post :=
  ((s.sortedPosts).drop ((p - 1) * s.pageSize)).take s.pageSize

/-- Computed `paginatedPosts`: the current page's slice. -/
def ViewState.paginatedPosts (s : ViewState) : List Post :=
  s.pagePosts s.currentPage

/-- Computed `totalPages`: `Math.ceil(posts.length / pageSize)`. -/
def ViewState.totalPages (s : ViewState) : Nat :=
  (s.posts.length + s.pageSize - 1) / s.pageSize

/-- JavaScript `String.prototype.trim()`: strip whitespace from both ends.
(Defined on the character list so that it is kernel-executable; Lean's own
`String.trim` is well-founded recursion over byte positions.) -/
def strTrim (s : String) : String :=
  ⟨((s.data.dropWhile Char.isWhitespace).reverse.dropWhile Char.isWhitespace).reverse⟩

/-- `validatePost`: `none` when valid; otherwise the error message the
source assigns to `this.error`. Checks, in source order: both fields
non-empty after trim, then `title.length > 100`, then
`content.length > 1000` (lengths of the strings as passed in). -/
def validatePost (p : Post) : Option String :=
  if strTrim p.title = "" ∨ strTrim p.content = "" then
    some "Le titre et le contenu sont requis"
  else if p.title.length > 100 then
    some "Le titre ne doit pas dépasser 100 caractères"
  else if p.content.length > 1000 then
    some "Le contenu ne doit pas dépasser 1000 caractères"
  else
    none

/-- `fetchPosts` with the outcome of the `allDocs` call passed explicitly:
on success the rows replace `posts` and the error is cleared; on failure the
error message is set; `isLoading` ends `false` either way (`finally`). -/
def fetchPostsWith (s : ViewState) (result : Except String (List Post)) : ViewState :=
  match result with
  | .ok rows => { s with posts := rows, error := none, isLoading := false }
  | .error msg =>
      { s with error := some ("Erreur lors de la récupération des posts: " ++ msg),
               isLoading := false }

/-- `fetchPosts`: no-op without a local handle; otherwise reload the whole
collection from the store (the deterministic store model's `allDocs` always
succeeds; a failing call is modelled by `fetchPostsWith`). -/
def fetchPosts (s : ViewState) : ViewState :=
  match s.localDb with
  | none => s
  | some h => fetchPostsWith s (.ok h.db.allDocs)

/-- `addPost`, with the values of its three `createTimestamp()` reads passed
explicitly (`ts1` for `_id`, `ts2` for `creation_date`, `ts3` for
`modified`; real clock reads are monotone in that order). Mirrors the
source: early silent return when there is no local handle or either form
field is empty after trim; otherwise build the document from the trimmed
form fields, validate, `put`, clear the form, re-fetch, clear the error;
a store failure only sets the error message. -/
def addPost (s : ViewState) (ts1 ts2 ts3 : Nat) : ViewState :=
  match s.localDb with
  | none => s
  | some h =>
    if strTrim s.newPost.title = "" ∨ strTrim s.newPost.content = "" then s
    else
      let post : Post :=
        { _id := ts1
          _rev := none
          title := strTrim s.newPost.title
          content := strTrim s.newPost.content
          attributes := { creation_date := ts2, modified := ts3 } }
      match validatePost post with
      | some msg => { s with error := some msg }
      | none =>
        match h.db.put post with
        | .error e =>
            { s with error := some ("Erreur lors de l\x27ajout du post: " ++ e.message) }
        | .ok db' =>
            let s1 := { s with localDb := some { h with db := db' }, newPost := ⟨"", ""⟩ }
            { fetchPosts s1 with error := none }

/-- `deletePost`: no-op without a local handle; otherwise `remove` with the
post's `_id` and `_rev`, then re-fetch and clear the error on success, or
set the error message on failure; `isLoading` ends `false` (`finally`). -/
def deletePost (s : ViewState) (p : Post) : ViewState :=
  match s.localDb with
  | none => s
  | some h =>
    match h.db.remove p._id p._rev with
    | .error e =>
        { s with
          error := some ("Erreur lors de la suppression du post : " ++ e.message)
          isLoading := false }
    | .ok db' =>
        let s1 := { s with localDb := some { h with db := db' } }
        { fetchPosts s1 with error := none, isLoading := false }

/-- The partial post the edit form submits: `_id` (the current edit id),
the two form fields, and a payload `attributes` object built from two fresh
`createTimestamp()` reads. -/
structure FormPayload where
  _id : Option Nat
  title : String
  content : String
  attributes : Attributes
deriving Repr, DecidableEq

/-- The updated document `updatePost` builds from the existing document and
the submitted partial post: spread of the existing document, each form
field falling back to the existing value when empty (JS `||`), and
`attributes` spread from the existing attributes with only `modified`
replaced by a fresh `createTimestamp()` read (`now`). The payload's
`attributes` are never consulted. -/
def updatedDoc (existing : Post) (pp : FormPayload) (now : Nat) : Post :=
  { existing with
    title := if pp.title = "" then existing.title else pp.title
    content := if pp.content = "" then existing.content else pp.content
    attributes := { existing.attributes with modified := now } }

/-- `updatePost`, with the value of its `createTimestamp()` read passed as
`now`. Mirrors the source: early return when there is no local handle or no
`_id`; `get` the existing document (failure lands in the `catch`, which
sets the error); build `updatedDoc`; validate (failure sets the error and
returns); `put`; on success leave editing mode, clear the form, re-fetch
and clear the error; a `put` failure lands in the `catch`. -/
def updatePost (s : ViewState) (pp : FormPayload) (now : Nat) : ViewState :=
  match s.localDb, pp._id with
  | none, _ => s
  | some _, none => s
  | some h, some id =>
    match h.db.get id with
    | .error e =>
        { s with error := some ("Erreur lors de la mise à jour du post: " ++ e.message) }
    | .ok existing =>
      let updated := updatedDoc existing pp now
      match validatePost updated with
      | some msg => { s with error := some msg }
      | none =>
        match h.db.put updated with
        | .error e =>
            { s with error := some ("Erreur lors de la mise à jour du post: " ++ e.message) }
        | .ok db' =>
            let s1 :=
              { s with
                localDb := some { h with db := db' }
                isEditing := false
                currentEditId := none
                newPost := ⟨"", ""⟩ }
            { fetchPosts s1 with error := none }

/-- `startEditing`: enter editing mode on a post and pre-fill the form. -/
def startEditing (s : ViewState) (p : Post) : ViewState :=
  { s with
    isEditing := true
    currentEditId := some p._id
    newPost := ⟨p.title, p.content⟩ }

/-- `cancelEditing`: leave editing mode and clear the form. -/
def cancelEditing (s : ViewState) : ViewState :=
  { s with isEditing := false, currentEditId := none, newPost := ⟨"", ""⟩ }

/-- `changePage(page)`: set `currentPage` when `1 ≤ page ≤ totalPages`,
otherwise do nothing. The argument is an arbitrary (possibly negative)
JS number, hence `Int`. -/
def changePage (s : ViewState) (page : Int) : ViewState :=
  if 1 ≤ page ∧ page ≤ (s.totalPages : Int) then
    { s with currentPage := page.toNat }
  else s

/-- `beforeUnmount`: cancel the replication session when present, and close
each store handle that is present. -/
def beforeUnmount (s : ViewState) : ViewState :=
  { s with
    sync := s.sync.map (fun sy => { sy with cancelled := true })
    localDb := s.localDb.map (fun h => { h with closed := true })
    remoteDb := s.remoteDb.map (fun h => { h with closed := true }) }


/-! ### List-level helper lemmas -/

theorem dropWhile_idem {α : Type} (p : α → Bool) (l : List α) :
    (l.dropWhile p).dropWhile p = l.dropWhile p := by
  cases h : l.dropWhile p with
  | nil => simp
  | cons c t =>
    have hc : p c = false := by
      have hw : l.dropWhile p ≠ [] := by simp [h]
      have := List.head_dropWhile_not p l hw
      simpa only [h, List.head_cons] using this
    simp [List.dropWhile_cons, hc]

theorem dropWhile_of_prefix_self {α : Type} (p : α → Bool) {z w : List α}
    (hz : z.dropWhile p = z) (hw : w <+: z) : w.dropWhile p = w := by
  cases w with
  | nil => simp
  | cons c t =>
    have hc : p c = false := by
      obtain ⟨r, hr⟩ := hw
      have hz' : z ≠ [] := by
        intro hnil
        rw [hnil] at hr
        exact absurd hr (by simp)
      have hhead : p (z.head hz') = false := by
        have := List.head_dropWhile_not p z (by rw [hz]; exact hz')
        simpa [hz] using this
      have : z.head hz' = c := by
        subst hr
        simp
      rwa [this] at hhead
    simp [List.dropWhile_cons, hc]

theorem trim_data_eq (s : String) :
    (strTrim s).data
      = ((s.data.dropWhile Char.isWhitespace).reverse.dropWhile Char.isWhitespace).reverse :=
  rfl

theorem strTrim_idem (s : String) : strTrim (strTrim s) = strTrim s := by
  apply String.ext
  rw [trim_data_eq, trim_data_eq]
  set ws := Char.isWhitespace
  set A := s.data.dropWhile ws with hA
  set B := A.reverse.dropWhile ws with hB
  have h1 : B.reverse.dropWhile ws = B.reverse := by
    apply dropWhile_of_prefix_self ws (z := A)
    · rw [hA]; exact dropWhile_idem ws s.data
    · rw [← List.reverse_reverse A]
      exact List.reverse_prefix.mpr (by rw [hB]; exact List.dropWhile_suffix ws)
  rw [h1, List.reverse_reverse, hB, dropWhile_idem]

theorem take_add_split {α : Type} (l : List α) (m k : Nat) :
    l.take (m + k) = l.take m ++ (l.drop m).take k := by
  rw [List.take_drop]
  conv_lhs => rw [← List.take_append_drop m (l.take (m + k))]
  rw [List.take_take]
  congr 1
  exact congrArg (fun n => l.take n) (Nat.min_eq_left (Nat.le_add_right m k))

theorem find?_map_replace (l : List Post) (id : Nat) (ex new : Post)
    (hfind : l.find? (fun p => p._id = id) = some ex) (hnew : new._id = id) :
    (l.map (fun r => if r._id = id then new else r)).find? (fun p => p._id = id)
      = some new := by
  induction l with
  | nil => simp at hfind
  | cons a t ih =>
    by_cases ha : a._id = id
    · simp only [List.map_cons, if_pos ha]
      rw [List.find?_cons_of_pos _ (by simp [hnew])]
    · rw [List.find?_cons_of_neg _ (by simp [ha])] at hfind
      simp only [List.map_cons, if_neg ha]
      rw [List.find?_cons_of_neg _ (by simp [ha])]
      exact ih hfind

theorem flatten_slices {α : Type} (l : List α) (S : Nat) (n : Nat) :
    ((List.range n).map (fun i => (l.drop (i * S)).take S)).flatten = l.take (n * S) := by
  induction n with
  | zero => simp
  | succ m ih =>
    rw [List.range_succ, List.map_append, List.flatten_append]
    simp only [List.map_cons, List.map_nil, List.flatten_cons, List.flatten_nil, List.append_nil]
    rw [ih, Nat.succ_mul, take_add_split]

/-! ### Claim C9: `fetchPosts` failure behavior -/

/-- C9: in a run of `fetchPosts` whose `allDocs` call fails, `posts` is left
exactly as it was, the error string is set, and `isLoading` is `false`
afterwards; `posts` is reassigned (to the fetched rows) only when the call
succeeds. -/
theorem fetchPosts_failure_frame (s : ViewState) (msg : String) :
    (fetchPostsWith s (.error msg)).posts = s.posts
    ∧ (fetchPostsWith s (.error msg)).error
        = some ("Erreur lors de la récupération des posts: " ++ msg)
    ∧ (fetchPostsWith s (.error msg)).isLoading = false
    ∧ ∀ rows, (fetchPostsWith s (.ok rows)).posts = rows := by
  refine ⟨rfl, rfl, rfl, fun rows => rfl⟩

/-! ### Claim C8: teardown cancels the session and closes both handles -/

/-- C8: on view teardown (`beforeUnmount`), the replication session is
cancelled and both the local and the remote store handle are closed. -/
theorem beforeUnmount_cleanup (s : ViewState) (sy : SyncHandle)
    (lh : LocalHandle) (rh : RemoteHandle)
    (hs : s.sync = some sy) (hl : s.localDb = some lh) (hr : s.remoteDb = some rh) :
    (beforeUnmount s).sync = some { sy with cancelled := true }
    ∧ (beforeUnmount s).localDb = some { lh with closed := true }
    ∧ (beforeUnmount s).remoteDb = some { rh with closed := true } := by
  refine ⟨?_, ?_, ?_⟩ <;> simp [beforeUnmount, hs, hl, hr]

theorem beforeUnmount_cleanup_witness :
    ({ initialState with
        sync := some ⟨false⟩
        localDb := some ⟨⟨[]⟩, false⟩
        remoteDb := some ⟨false⟩ } : ViewState).sync = some ⟨false⟩
    ∧ (beforeUnmount { initialState with
        sync := some ⟨false⟩
        localDb := some ⟨⟨[]⟩, false⟩
        remoteDb := some ⟨false⟩ }).sync = some ⟨true⟩
    ∧ (beforeUnmount { initialState with
        sync := some ⟨false⟩
        localDb := some ⟨⟨[]⟩, false⟩
        remoteDb := some ⟨false⟩ }).localDb = some ⟨⟨[]⟩, true⟩
    ∧ (beforeUnmount { initialState with
        sync := some ⟨false⟩
        localDb := some ⟨⟨[]⟩, false⟩
        remoteDb := some ⟨false⟩ }).remoteDb = some ⟨true⟩ := by
  refine ⟨rfl, ?_⟩
  have := beforeUnmount_cleanup
    { initialState with
        sync := some ⟨false⟩
        localDb := some ⟨⟨[]⟩, false⟩
        remoteDb := some ⟨false⟩ }
    ⟨false⟩ ⟨⟨[]⟩, false⟩ ⟨false⟩ rfl rfl rfl
  exact this

/-! ### Claim C6: `changePage` -/

/-- C6: `changePage` with a page outside `[1, totalPages]` leaves
`currentPage` unchanged, and with a page inside the interval sets
`currentPage` to that page. -/
theorem changePage_spec (s : ViewState) (pOut pIn : Int)
    (hOut : ¬ (1 ≤ pOut ∧ pOut ≤ (s.totalPages : Int)))
    (hIn : 1 ≤ pIn ∧ pIn ≤ (s.totalPages : Int)) :
    (changePage s pOut).currentPage = s.currentPage
    ∧ ((changePage s pIn).currentPage : Int) = pIn := by
  constructor
  · rw [changePage, if_neg hOut]
  · rw [changePage, if_pos hIn]
    exact Int.toNat_of_nonneg (by omega)

theorem changePage_spec_witness :
    (¬ (1 ≤ (0 : Int) ∧ (0 : Int) ≤ (({ initialState with
        posts := [⟨1, some 1, "t", "c", ⟨1, 1⟩⟩] } : ViewState).totalPages : Int)))
    ∧ (1 ≤ (1 : Int) ∧ (1 : Int) ≤ (({ initialState with
        posts := [⟨1, some 1, "t", "c", ⟨1, 1⟩⟩] } : ViewState).totalPages : Int))
    ∧ (changePage { initialState with
        posts := [⟨1, some 1, "t", "c", ⟨1, 1⟩⟩] } 0).currentPage
        = ({ initialState with
        posts := [⟨1, some 1, "t", "c", ⟨1, 1⟩⟩] } : ViewState).currentPage
    ∧ ((changePage { initialState with
        posts := [⟨1, some 1, "t", "c", ⟨1, 1⟩⟩] } 1).currentPage : Int) = 1 := by
  refine ⟨by decide, by decide, ?_⟩
  exact changePage_spec { initialState with
    posts := [⟨1, some 1, "t", "c", ⟨1, 1⟩⟩] } 0 1 (by decide) (by decide)

/-! ### Pagination helper lemmas -/

theorem totalPages_le_iff (s : ViewState) (hS : 0 < s.pageSize) (k : Nat) :
    s.totalPages ≤ k ↔ s.posts.length ≤ k * s.pageSize := by
  rw [ViewState.totalPages, Nat.div_le_iff_le_mul_add_pred hS,
    Nat.add_sub_assoc hS, Nat.add_le_add_iff_right, Nat.mul_comm]

theorem sortedPosts_length (s : ViewState) : s.sortedPosts.length = s.posts.length :=
  List.length_mergeSort s.posts

theorem posts_le_totalPages_mul (s : ViewState) (hS : 0 < s.pageSize) :
    s.posts.length ≤ s.totalPages * s.pageSize :=
  (totalPages_le_iff s hS s.totalPages).mp (Nat.le_refl _)

/-! ### Claim C5: pagination reproduces the sorted collection -/

/-- C5: `totalPages` is the ceiling of `N / S` (characterized by its Galois
property `totalPages ≤ k ↔ N ≤ k*S`), every page is the corresponding slice
of the list sorted by `creation_date` descending, and concatenating pages
`1..totalPages` reproduces exactly the full sorted list, which is a
permutation of the collection (no duplicates, no omissions) sorted in
descending `creation_date` order. -/
theorem pagination_reproduces_sorted (s : ViewState) (hS : 0 < s.pageSize) :
    (∀ k : Nat, s.totalPages ≤ k ↔ s.posts.length ≤ k * s.pageSize)
    ∧ (∀ p : Nat, s.pagePosts p
        = (s.sortedPosts.drop ((p - 1) * s.pageSize)).take s.pageSize)
    ∧ ((List.range s.totalPages).map (fun i => s.pagePosts (i + 1))).flatten
        = s.sortedPosts
    ∧ s.sortedPosts.Perm s.posts
    ∧ s.sortedPosts.Pairwise
        (fun a b => b.attributes.creation_date ≤ a.attributes.creation_date) := by
  refine ⟨totalPages_le_iff s hS, fun p => rfl, ?_, ?_, ?_⟩
  · have hmap : (List.range s.totalPages).map (fun i => s.pagePosts (i + 1))
        = (List.range s.totalPages).map
            (fun i => (s.sortedPosts.drop (i * s.pageSize)).take s.pageSize) := by
      apply List.map_congr_left
      intro i _
      rw [ViewState.pagePosts, Nat.add_sub_cancel]
    rw [hmap, flatten_slices]
    apply List.take_of_length_le
    rw [sortedPosts_length]
    exact posts_le_totalPages_mul s hS
  · exact List.mergeSort_perm s.posts byCreationDesc
  · have h := @List.sorted_mergeSort Post byCreationDesc
      (fun a b c hab hbc => by
        simp only [byCreationDesc, decide_eq_true_eq] at *
        omega)
      (fun a b => by
        simp only [byCreationDesc]
        rcases Nat.le_total b.attributes.creation_date a.attributes.creation_date with h | h
        · simp [h]
        · simp [h])
      s.posts
    exact h.imp (fun hab => by simpa [byCreationDesc] using hab)

theorem pagination_reproduces_sorted_witness :
    0 < initialState.pageSize
    ∧ ((∀ k : Nat, initialState.totalPages ≤ k
          ↔ initialState.posts.length ≤ k * initialState.pageSize)
    ∧ (∀ p : Nat, initialState.pagePosts p
        = (initialState.sortedPosts.drop ((p - 1) * initialState.pageSize)).take
            initialState.pageSize)
    ∧ ((List.range initialState.totalPages).map
          (fun i => initialState.pagePosts (i + 1))).flatten = initialState.sortedPosts
    ∧ initialState.sortedPosts.Perm initialState.posts
    ∧ initialState.sortedPosts.Pairwise
        (fun a b => b.attributes.creation_date ≤ a.attributes.creation_date)) :=
  ⟨by decide, pagination_reproduces_sorted initialState (by decide)⟩

/-! ### Frame lemmas: no operation but `changePage` touches `currentPage` -/

theorem fetchPostsWith_currentPage (s : ViewState) (r : Except String (List Post)) :
    (fetchPostsWith s r).currentPage = s.currentPage := by
  cases r <;> rfl

theorem fetchPosts_currentPage (s : ViewState) :
    (fetchPosts s).currentPage = s.currentPage := by
  rw [fetchPosts]
  cases s.localDb <;> simp [fetchPostsWith_currentPage]

theorem addPost_currentPage (s : ViewState) (ts1 ts2 ts3 : Nat) :
    (addPost s ts1 ts2 ts3).currentPage = s.currentPage := by
  rw [addPost]
  cases s.localDb with
  | none => rfl
  | some h =>
    dsimp only
    split
    · rfl
    · split
      · rfl
      · split
        · rfl
        · simp [fetchPostsWith_currentPage, fetchPosts_currentPage]

theorem deletePost_currentPage (s : ViewState) (p : Post) :
    (deletePost s p).currentPage = s.currentPage := by
  rw [deletePost]
  cases s.localDb with
  | none => rfl
  | some h =>
    dsimp only
    split
    · rfl
    · simp [fetchPostsWith_currentPage, fetchPosts_currentPage]

theorem updatePost_currentPage (s : ViewState) (pp : FormPayload) (now : Nat) :
    (updatePost s pp now).currentPage = s.currentPage := by
  rw [updatePost]
  split
  · rfl
  · rfl
  · split
    · rfl
    · dsimp only
      split
      · rfl
      · split
        · rfl
        · simp [fetchPostsWith_currentPage, fetchPosts_currentPage]

/-! ### Claim C10 -/

/-- C10: create, update, delete, re-fetch, and the edit-mode transitions all
leave `currentPage` untouched (only `changePage` writes it), and whenever
deletions have shrunk the collection so far that `totalPages < currentPage`,
the displayed page `paginatedPosts` is the empty list. -/
theorem currentPage_only_changePage (s : ViewState) (ts1 ts2 ts3 now : Nat)
    (pp : FormPayload) (p : Post) (r : Except String (List Post))
    (hS : 0 < s.pageSize) (hover : s.totalPages < s.currentPage) :
    (addPost s ts1 ts2 ts3).currentPage = s.currentPage
    ∧ (updatePost s pp now).currentPage = s.currentPage
    ∧ (deletePost s p).currentPage = s.currentPage
    ∧ (fetchPosts s).currentPage = s.currentPage
    ∧ (fetchPostsWith s r).currentPage = s.currentPage
    ∧ (startEditing s p).currentPage = s.currentPage
    ∧ (cancelEditing s).currentPage = s.currentPage
    ∧ s.paginatedPosts = [] := by
  refine ⟨addPost_currentPage s ts1 ts2 ts3, updatePost_currentPage s pp now,
    deletePost_currentPage s p, fetchPosts_currentPage s,
    fetchPostsWith_currentPage s r, rfl, rfl, ?_⟩
  rw [ViewState.paginatedPosts, ViewState.pagePosts]
  have hlen : s.sortedPosts.length ≤ (s.currentPage - 1) * s.pageSize := by
    rw [sortedPosts_length]
    have h1 : s.totalPages ≤ s.currentPage - 1 := by omega
    exact (totalPages_le_iff s hS (s.currentPage - 1)).mp h1 |>.trans (Nat.le_refl _)
  rw [List.drop_eq_nil_of_le hlen, List.take_nil]

theorem currentPage_only_changePage_witness :
    0 < ({ initialState with
        posts := [⟨1, some 1, "t", "c", ⟨1, 1⟩⟩], currentPage := 2 } : ViewState).pageSize
    ∧ ({ initialState with
        posts := [⟨1, some 1, "t", "c", ⟨1, 1⟩⟩], currentPage := 2 } : ViewState).totalPages
      < ({ initialState with
        posts := [⟨1, some 1, "t", "c", ⟨1, 1⟩⟩], currentPage := 2 } : ViewState).currentPage
    ∧ ({ initialState with
        posts := [⟨1, some 1, "t", "c", ⟨1, 1⟩⟩], currentPage := 2 } : ViewState).paginatedPosts
      = [] :=
  ⟨by decide, by decide,
    (currentPage_only_changePage
      { initialState with posts := [⟨1, some 1, "t", "c", ⟨1, 1⟩⟩], currentPage := 2 }
      0 0 0 0 ⟨none, "", "", ⟨0, 0⟩⟩ ⟨1, some 1, "t", "c", ⟨1, 1⟩⟩ (.ok [])
      (by decide) (by decide)).2.2.2.2.2.2.2⟩

/-! ### Store interaction helper lemmas -/

theorem get_ok_find? (db : DB) (id : Nat) (ex : Post) (hget : db.get id = .ok ex) :
    db.docs.find? (fun p => p._id = id) = some ex := by
  rw [DB.get] at hget
  cases hfind : db.docs.find? (fun p => p._id = id) with
  | none => rw [hfind] at hget; exact absurd hget (by simp)
  | some p =>
    rw [hfind] at hget
    simpa using hget

theorem get_ok_id (db : DB) (id : Nat) (ex : Post) (hget : db.get id = .ok ex) :
    ex._id = id := by
  have := List.find?_some (get_ok_find? db id ex hget)
  simpa using this

theorem validatePost_trimmed_ok (id : Nat) (rev : Option Nat) (t c : String) (a : Attributes)
    (ht : ¬ strTrim t = "") (hc : ¬ strTrim c = "")
    (htl : ¬ (strTrim t).length > 100) (hcl : ¬ (strTrim c).length > 1000) :
    validatePost ⟨id, rev, strTrim t, strTrim c, a⟩ = none := by
  rw [validatePost]
  dsimp only
  rw [strTrim_idem, strTrim_idem, if_neg (fun hor => hor.elim ht hc), if_neg htl, if_neg hcl]

/-! ### `addPost` unfolding lemmas -/

theorem addPost_empty_eq (s : ViewState) (h : LocalHandle) (ts1 ts2 ts3 : Nat)
    (hdb : s.localDb = some h)
    (hemp : strTrim s.newPost.title = "" ∨ strTrim s.newPost.content = "") :
    addPost s ts1 ts2 ts3 = s := by
  rw [addPost, hdb]
  dsimp only
  rw [if_pos hemp]

theorem addPost_invalid_eq (s : ViewState) (h : LocalHandle) (ts1 ts2 ts3 : Nat) (msg : String)
    (hdb : s.localDb = some h)
    (hne : ¬ (strTrim s.newPost.title = "" ∨ strTrim s.newPost.content = ""))
    (hmsg : validatePost ⟨ts1, none, strTrim s.newPost.title, strTrim s.newPost.content,
        ⟨ts2, ts3⟩⟩ = some msg) :
    addPost s ts1 ts2 ts3 = { s with error := some msg } := by
  rw [addPost, hdb]
  dsimp only
  rw [if_neg hne, hmsg]

theorem addPost_success_eq (s : ViewState) (h : LocalHandle) (ts1 ts2 ts3 : Nat)
    (hdb : s.localDb = some h)
    (hfresh : h.db.docs.find? (fun q => q._id = ts1) = none)
    (ht : ¬ strTrim s.newPost.title = "")
    (hc : ¬ strTrim s.newPost.content = "")
    (htl : ¬ (strTrim s.newPost.title).length > 100)
    (hcl : ¬ (strTrim s.newPost.content).length > 1000) :
    addPost s ts1 ts2 ts3 =
      { s with
        localDb := some ⟨⟨(⟨ts1, some 1, strTrim s.newPost.title, strTrim s.newPost.content,
            ⟨ts2, ts3⟩⟩ : Post) :: h.db.docs⟩, h.closed⟩
        newPost := ⟨"", ""⟩
        posts := (⟨ts1, some 1, strTrim s.newPost.title, strTrim s.newPost.content,
            ⟨ts2, ts3⟩⟩ : Post) :: h.db.docs
        error := none
        isLoading := false } := by
  rw [addPost, hdb]
  dsimp only
  rw [if_neg (fun hor => hor.elim ht hc),
    validatePost_trimmed_ok ts1 none s.newPost.title s.newPost.content ⟨ts2, ts3⟩ ht hc htl hcl]
  have hput : h.db.put ⟨ts1, none, strTrim s.newPost.title, strTrim s.newPost.content,
      ⟨ts2, ts3⟩⟩ = .ok ⟨(⟨ts1, some 1, strTrim s.newPost.title, strTrim s.newPost.content,
      ⟨ts2, ts3⟩⟩ : Post) :: h.db.docs⟩ := by
    rw [DB.put]
    dsimp only
    rw [hfresh]
  rw [hput]
  rfl

/-! ### `updatePost` unfolding lemmas -/

theorem updatePost_getfail_eq (s : ViewState) (h : LocalHandle) (id : Nat)
    (pp : FormPayload) (now : Nat) (e : DbErr)
    (hdb : s.localDb = some h) (hid : pp._id = some id)
    (hget : h.db.get id = .error e) :
    updatePost s pp now
      = { s with error := some ("Erreur lors de la mise à jour du post: " ++ e.message) } := by
  rw [updatePost, hdb, hid]
  dsimp only
  rw [hget]

theorem updatePost_invalid_eq (s : ViewState) (h : LocalHandle) (id : Nat)
    (pp : FormPayload) (now : Nat) (ex : Post) (msg : String)
    (hdb : s.localDb = some h) (hid : pp._id = some id)
    (hget : h.db.get id = .ok ex)
    (hval : validatePost (updatedDoc ex pp now) = some msg) :
    updatePost s pp now = { s with error := some msg } := by
  rw [updatePost, hdb, hid]
  dsimp only
  rw [hget]
  dsimp only
  rw [hval]

theorem updatePost_success_eq (s : ViewState) (h : LocalHandle) (id : Nat)
    (pp : FormPayload) (now : Nat) (ex : Post)
    (hdb : s.localDb = some h) (hid : pp._id = some id)
    (hget : h.db.get id = .ok ex)
    (hval : validatePost (updatedDoc ex pp now) = none) :
    updatePost s pp now =
      { s with
        localDb := some ⟨⟨h.db.docs.map (fun r =>
            if r._id = id
            then { updatedDoc ex pp now with _rev := some (ex._rev.getD 0 + 1) }
            else r)⟩, h.closed⟩
        posts := h.db.docs.map (fun r =>
            if r._id = id
            then { updatedDoc ex pp now with _rev := some (ex._rev.getD 0 + 1) }
            else r)
        isEditing := false
        currentEditId := none
        newPost := ⟨"", ""⟩
        error := none
        isLoading := false } := by
  have hexid : ex._id = id := get_ok_id h.db id ex hget
  rw [updatePost, hdb, hid]
  dsimp only
  rw [hget]
  dsimp only
  rw [hval]
  have hput : h.db.put (updatedDoc ex pp now)
      = .ok ⟨h.db.docs.map (fun r =>
          if r._id = id
          then { updatedDoc ex pp now with _rev := some (ex._rev.getD 0 + 1) }
          else r)⟩ := by
    rw [DB.put]
    have hpid : (updatedDoc ex pp now)._id = id := hexid
    simp only [hpid]
    rw [get_ok_find? h.db id ex hget]
    dsimp only
    rw [if_pos (show (updatedDoc ex pp now)._rev = ex._rev from rfl)]
  rw [hput]
  simp [fetchPosts, fetchPostsWith, DB.allDocs]

/-! ### Claim C1: create followed by get -/

/-- C1 counterexample: `addPost` reads the clock separately for
`creation_date` and for `modified` (`createTimestamp()` twice), so on a run
where the clock advances between the two reads (here `20` then `21`) a
perfectly valid post is stored — and fetched back — with
`creation_date ≠ modified`, contrary to the claimed equality. -/
theorem create_get_distinct_timestamps :
    ∃ h' d,
      (addPost { initialState with
          localDb := some ⟨⟨[]⟩, false⟩
          newPost := ⟨"Hello", "World"⟩ } 10 20 21).localDb = some h'
      ∧ h'.db.get 10 = .ok d
      ∧ d.title = "Hello" ∧ d.content = "World"
      ∧ ¬ d.attributes.creation_date = d.attributes.modified :=
  ⟨⟨⟨[⟨10, some 1, "Hello", "World", ⟨20, 21⟩⟩]⟩, false⟩,
   ⟨10, some 1, "Hello", "World", ⟨20, 21⟩⟩, by decide⟩

/-- C1 (amended): creating a valid post (both fields non-empty and within
the limits after trimming, fresh id) and fetching it back by id returns a
document whose `title`/`content` are the submitted trimmed values and whose
`creation_date` and `modified` are the two successive clock reads, so
`creation_date ≤ modified` — with equality exactly when the clock did not
advance between the two reads, not unconditionally. -/
theorem create_then_get_trimmed (s : ViewState) (h : LocalHandle) (ts1 ts2 ts3 : Nat)
    (hdb : s.localDb = some h)
    (hfresh : h.db.docs.find? (fun q => q._id = ts1) = none)
    (ht : ¬ strTrim s.newPost.title = "")
    (hc : ¬ strTrim s.newPost.content = "")
    (htl : (strTrim s.newPost.title).length ≤ 100)
    (hcl : (strTrim s.newPost.content).length ≤ 1000)
    (hmono : ts2 ≤ ts3) :
    ∃ h' d, (addPost s ts1 ts2 ts3).localDb = some h'
      ∧ h'.db.get ts1 = .ok d
      ∧ d.title = strTrim s.newPost.title
      ∧ d.content = strTrim s.newPost.content
      ∧ d.attributes.creation_date = ts2
      ∧ d.attributes.modified = ts3
      ∧ d.attributes.creation_date ≤ d.attributes.modified := by
  rw [addPost_success_eq s h ts1 ts2 ts3 hdb hfresh ht hc (by omega) (by omega)]
  refine ⟨_, ⟨ts1, some 1, strTrim s.newPost.title, strTrim s.newPost.content, ⟨ts2, ts3⟩⟩,
    rfl, ?_, rfl, rfl, rfl, rfl, hmono⟩
  rw [DB.get, List.find?_cons_of_pos _ (by simp)]

theorem create_then_get_trimmed_witness :
    (({ initialState with
        localDb := some ⟨⟨[]⟩, false⟩
        newPost := ⟨" Hello ", "World"⟩ } : ViewState).localDb = some ⟨⟨[]⟩, false⟩)
    ∧ (⟨[]⟩ : DB).docs.find? (fun q => q._id = 10) = none
    ∧ ¬ strTrim (" Hello " : String) = ""
    ∧ ¬ strTrim ("World" : String) = ""
    ∧ (strTrim (" Hello " : String)).length ≤ 100
    ∧ (strTrim ("World" : String)).length ≤ 1000
    ∧ (20 : Nat) ≤ 20
    ∧ ∃ h' d, (addPost { initialState with
          localDb := some ⟨⟨[]⟩, false⟩
          newPost := ⟨" Hello ", "World"⟩ } 10 20 20).localDb = some h'
        ∧ h'.db.get 10 = .ok d
        ∧ d.title = strTrim (" Hello " : String)
        ∧ d.content = strTrim ("World" : String)
        ∧ d.attributes.creation_date = 20
        ∧ d.attributes.modified = 20
        ∧ d.attributes.creation_date ≤ d.attributes.modified :=
  ⟨rfl, by decide, by decide, by decide, by decide, by decide, by decide,
    create_then_get_trimmed
      { initialState with
        localDb := some ⟨⟨[]⟩, false⟩
        newPost := ⟨" Hello ", "World"⟩ }
      ⟨⟨[]⟩, false⟩ 10 20 20 rfl (by decide) (by decide) (by decide) (by decide)
      (by decide) (by decide)⟩

/-! ### Claim C4: update preserves id and creation_date, advances modified -/

/-- C4: a successful `updatePost` (document found, validation passes) writes
a document with the same `_id`, the same `attributes.creation_date`, and
`attributes.modified` equal to the fresh clock read `now`, which under clock
monotonicity is `≥` the previous `modified`; the payload's own `attributes`
(including the fresh `creation_date` the edit form passes) are ignored, as
the conclusion is independent of `pp.attributes`. -/
theorem update_preserves_id_creation (s : ViewState) (h : LocalHandle) (id : Nat)
    (pp : FormPayload) (now : Nat) (ex : Post)
    (hdb : s.localDb = some h) (hid : pp._id = some id)
    (hget : h.db.get id = .ok ex)
    (hval : validatePost (updatedDoc ex pp now) = none)
    (hmono : ex.attributes.modified ≤ now) :
    ∃ h' d, (updatePost s pp now).localDb = some h'
      ∧ h'.db.get id = .ok d
      ∧ d._id = ex._id
      ∧ d.attributes.creation_date = ex.attributes.creation_date
      ∧ d.attributes.modified = now
      ∧ ex.attributes.modified ≤ d.attributes.modified := by
  rw [updatePost_success_eq s h id pp now ex hdb hid hget hval]
  refine ⟨_, { updatedDoc ex pp now with _rev := some (ex._rev.getD 0 + 1) },
    rfl, ?_, rfl, rfl, rfl, hmono⟩
  rw [DB.get]
  dsimp only
  rw [find?_map_replace h.db.docs id ex
    { updatedDoc ex pp now with _rev := some (ex._rev.getD 0 + 1) }
    (get_ok_find? h.db id ex hget) (get_ok_id h.db id ex hget)]

theorem update_preserves_id_creation_witness :
    (({ initialState with
        localDb := some ⟨⟨[⟨5, some 1, "t", "c", ⟨3, 4⟩⟩]⟩, false⟩
        isEditing := true
        currentEditId := some 5 } : ViewState).localDb
      = some ⟨⟨[⟨5, some 1, "t", "c", ⟨3, 4⟩⟩]⟩, false⟩)
    ∧ ((⟨some 5, "x", "y", ⟨99, 99⟩⟩ : FormPayload)._id = some 5)
    ∧ ((⟨⟨[⟨5, some 1, "t", "c", ⟨3, 4⟩⟩]⟩, false⟩ : LocalHandle).db.get 5
        = .ok ⟨5, some 1, "t", "c", ⟨3, 4⟩⟩)
    ∧ validatePost (updatedDoc ⟨5, some 1, "t", "c", ⟨3, 4⟩⟩ ⟨some 5, "x", "y", ⟨99, 99⟩⟩ 7) = none
    ∧ (⟨5, some 1, "t", "c", ⟨3, 4⟩⟩ : Post).attributes.modified ≤ 7
    ∧ ∃ h' d, (updatePost { initialState with
          localDb := some ⟨⟨[⟨5, some 1, "t", "c", ⟨3, 4⟩⟩]⟩, false⟩
          isEditing := true
          currentEditId := some 5 } ⟨some 5, "x", "y", ⟨99, 99⟩⟩ 7).localDb
          = some h'
        ∧ h'.db.get 5 = .ok d
        ∧ d._id = (⟨5, some 1, "t", "c", ⟨3, 4⟩⟩ : Post)._id
        ∧ d.attributes.creation_date
            = (⟨5, some 1, "t", "c", ⟨3, 4⟩⟩ : Post).attributes.creation_date
        ∧ d.attributes.modified = 7
        ∧ (⟨5, some 1, "t", "c", ⟨3, 4⟩⟩ : Post).attributes.modified
            ≤ d.attributes.modified :=
  ⟨rfl, rfl, by decide, by decide, by decide,
    update_preserves_id_creation
      { initialState with
        localDb := some ⟨⟨[⟨5, some 1, "t", "c", ⟨3, 4⟩⟩]⟩, false⟩
        isEditing := true
        currentEditId := some 5 }
      ⟨⟨[⟨5, some 1, "t", "c", ⟨3, 4⟩⟩]⟩, false⟩ 5 ⟨some 5, "x", "y", ⟨99, 99⟩⟩ 7
      ⟨5, some 1, "t", "c", ⟨3, 4⟩⟩ rfl rfl (by decide) (by decide) (by decide)⟩

/-! ### Claim C7: submit while editing -/

/-- C7: in the editing state, a submit whose document lookup succeeds and
whose validation passes completes the write and transitions the view to
idle (`isEditing = false`, `currentEditId = none`, form cleared, no error);
a submit that fails validation, or whose store interaction fails (the
lookup reports an error, caught by the handler that also catches `put`
failures), leaves the view editing with a user-visible error set and the
store untouched. -/
theorem submit_while_editing_transitions (s : ViewState) (h : LocalHandle) (id : Nat)
    (pp : FormPayload) (now : Nat)
    (hdb : s.localDb = some h) (hedit : s.isEditing = true) (hid : pp._id = some id) :
    (∀ ex, h.db.get id = .ok ex → validatePost (updatedDoc ex pp now) = none →
      (updatePost s pp now).isEditing = false
      ∧ (updatePost s pp now).currentEditId = none
      ∧ (updatePost s pp now).newPost = ⟨"", ""⟩
      ∧ (updatePost s pp now).error = none)
    ∧ (∀ ex msg, h.db.get id = .ok ex → validatePost (updatedDoc ex pp now) = some msg →
      (updatePost s pp now).isEditing = true
      ∧ (updatePost s pp now).currentEditId = s.currentEditId
      ∧ (updatePost s pp now).error = some msg
      ∧ (updatePost s pp now).localDb = s.localDb
      ∧ (updatePost s pp now).posts = s.posts)
    ∧ (∀ e, h.db.get id = .error e →
      (updatePost s pp now).isEditing = true
      ∧ (updatePost s pp now).currentEditId = s.currentEditId
      ∧ (updatePost s pp now).error
          = some ("Erreur lors de la mise à jour du post: " ++ e.message)
      ∧ (updatePost s pp now).localDb = s.localDb
      ∧ (updatePost s pp now).posts = s.posts) := by
  refine ⟨?_, ?_, ?_⟩
  · intro ex hget hval
    rw [updatePost_success_eq s h id pp now ex hdb hid hget hval]
    exact ⟨rfl, rfl, rfl, rfl⟩
  · intro ex msg hget hval
    rw [updatePost_invalid_eq s h id pp now ex msg hdb hid hget hval]
    exact ⟨hedit, rfl, rfl, rfl, rfl⟩
  · intro e hget
    rw [updatePost_getfail_eq s h id pp now e hdb hid hget]
    exact ⟨hedit, rfl, rfl, rfl, rfl⟩

theorem submit_while_editing_transitions_witness :
    (({ initialState with
        localDb := some ⟨⟨[⟨5, some 1, "t", "c", ⟨3, 4⟩⟩]⟩, false⟩
        isEditing := true
        currentEditId := some 5
        newPost := ⟨"x", "y"⟩ } : ViewState).localDb
      = some ⟨⟨[⟨5, some 1, "t", "c", ⟨3, 4⟩⟩]⟩, false⟩)
    ∧ (({ initialState with
        localDb := some ⟨⟨[⟨5, some 1, "t", "c", ⟨3, 4⟩⟩]⟩, false⟩
        isEditing := true
        currentEditId := some 5
        newPost := ⟨"x", "y"⟩ } : ViewState).isEditing = true)
    ∧ ((⟨some 5, "x", "y", ⟨99, 99⟩⟩ : FormPayload)._id = some 5)
    ∧ ((∀ ex, (⟨⟨[⟨5, some 1, "t", "c", ⟨3, 4⟩⟩]⟩, false⟩ : LocalHandle).db.get 5 = .ok ex →
        validatePost (updatedDoc ex ⟨some 5, "x", "y", ⟨99, 99⟩⟩ 7) = none →
        (updatePost { initialState with
            localDb := some ⟨⟨[⟨5, some 1, "t", "c", ⟨3, 4⟩⟩]⟩, false⟩
            isEditing := true
            currentEditId := some 5
            newPost := ⟨"x", "y"⟩ } ⟨some 5, "x", "y", ⟨99, 99⟩⟩ 7).isEditing = false
        ∧ (updatePost { initialState with
            localDb := some ⟨⟨[⟨5, some 1, "t", "c", ⟨3, 4⟩⟩]⟩, false⟩
            isEditing := true
            currentEditId := some 5
            newPost := ⟨"x", "y"⟩ } ⟨some 5, "x", "y", ⟨99, 99⟩⟩ 7).currentEditId = none
        ∧ (updatePost { initialState with
            localDb := some ⟨⟨[⟨5, some 1, "t", "c", ⟨3, 4⟩⟩]⟩, false⟩
            isEditing := true
            currentEditId := some 5
            newPost := ⟨"x", "y"⟩ } ⟨some 5, "x", "y", ⟨99, 99⟩⟩ 7).newPost = ⟨"", ""⟩
        ∧ (updatePost { initialState with
            localDb := some ⟨⟨[⟨5, some 1, "t", "c", ⟨3, 4⟩⟩]⟩, false⟩
            isEditing := true
            currentEditId := some 5
            newPost := ⟨"x", "y"⟩ } ⟨some 5, "x", "y", ⟨99, 99⟩⟩ 7).error = none)
      ∧ (∀ ex msg, (⟨⟨[⟨5, some 1, "t", "c", ⟨3, 4⟩⟩]⟩, false⟩ : LocalHandle).db.get 5 = .ok ex →
        validatePost (updatedDoc ex ⟨some 5, "x", "y", ⟨99, 99⟩⟩ 7) = some msg →
        (updatePost { initialState with
            localDb := some ⟨⟨[⟨5, some 1, "t", "c", ⟨3, 4⟩⟩]⟩, false⟩
            isEditing := true
            currentEditId := some 5
            newPost := ⟨"x", "y"⟩ } ⟨some 5, "x", "y", ⟨99, 99⟩⟩ 7).isEditing = true
        ∧ (updatePost { initialState with
            localDb := some ⟨⟨[⟨5, some 1, "t", "c", ⟨3, 4⟩⟩]⟩, false⟩
            isEditing := true
            currentEditId := some 5
            newPost := ⟨"x", "y"⟩ } ⟨some 5, "x", "y", ⟨99, 99⟩⟩ 7).currentEditId
          = ({ initialState with
            localDb := some ⟨⟨[⟨5, some 1, "t", "c", ⟨3, 4⟩⟩]⟩, false⟩
            isEditing := true
            currentEditId := some 5
            newPost := ⟨"x", "y"⟩ } : ViewState).currentEditId
        ∧ (updatePost { initialState with
            localDb := some ⟨⟨[⟨5, some 1, "t", "c", ⟨3, 4⟩⟩]⟩, false⟩
            isEditing := true
            currentEditId := some 5
            newPost := ⟨"x", "y"⟩ } ⟨some 5, "x", "y", ⟨99, 99⟩⟩ 7).error = some msg
        ∧ (updatePost { initialState with
            localDb := some ⟨⟨[⟨5, some 1, "t", "c", ⟨3, 4⟩⟩]⟩, false⟩
            isEditing := true
            currentEditId := some 5
            newPost := ⟨"x", "y"⟩ } ⟨some 5, "x", "y", ⟨99, 99⟩⟩ 7).localDb
          = ({ initialState with
            localDb := some ⟨⟨[⟨5, some 1, "t", "c", ⟨3, 4⟩⟩]⟩, false⟩
            isEditing := true
            currentEditId := some 5
            newPost := ⟨"x", "y"⟩ } : ViewState).localDb
        ∧ (updatePost { initialState with
            localDb := some ⟨⟨[⟨5, some 1, "t", "c", ⟨3, 4⟩⟩]⟩, false⟩
            isEditing := true
            currentEditId := some 5
            newPost := ⟨"x", "y"⟩ } ⟨some 5, "x", "y", ⟨99, 99⟩⟩ 7).posts
          = ({ initialState with
            localDb := some ⟨⟨[⟨5, some 1, "t", "c", ⟨3, 4⟩⟩]⟩, false⟩
            isEditing := true
            currentEditId := some 5
            newPost := ⟨"x", "y"⟩ } : ViewState).posts)
      ∧ (∀ e, (⟨⟨[⟨5, some 1, "t", "c", ⟨3, 4⟩⟩]⟩, false⟩ : LocalHandle).db.get 5 = .error e →
        (updatePost { initialState with
            localDb := some ⟨⟨[⟨5, some 1, "t", "c", ⟨3, 4⟩⟩]⟩, false⟩
            isEditing := true
            currentEditId := some 5
            newPost := ⟨"x", "y"⟩ } ⟨some 5, "x", "y", ⟨99, 99⟩⟩ 7).isEditing = true
        ∧ (updatePost { initialState with
            localDb := some ⟨⟨[⟨5, some 1, "t", "c", ⟨3, 4⟩⟩]⟩, false⟩
            isEditing := true
            currentEditId := some 5
            newPost := ⟨"x", "y"⟩ } ⟨some 5, "x", "y", ⟨99, 99⟩⟩ 7).currentEditId
          = ({ initialState with
            localDb := some ⟨⟨[⟨5, some 1, "t", "c", ⟨3, 4⟩⟩]⟩, false⟩
            isEditing := true
            currentEditId := some 5
            newPost := ⟨"x", "y"⟩ } : ViewState).currentEditId
        ∧ (updatePost { initialState with
            localDb := some ⟨⟨[⟨5, some 1, "t", "c", ⟨3, 4⟩⟩]⟩, false⟩
            isEditing := true
            currentEditId := some 5
            newPost := ⟨"x", "y"⟩ } ⟨some 5, "x", "y", ⟨99, 99⟩⟩ 7).error
          = some ("Erreur lors de la mise à jour du post: " ++ e.message)
        ∧ (updatePost { initialState with
            localDb := some ⟨⟨[⟨5, some 1, "t", "c", ⟨3, 4⟩⟩]⟩, false⟩
            isEditing := true
            currentEditId := some 5
            newPost := ⟨"x", "y"⟩ } ⟨some 5, "x", "y", ⟨99, 99⟩⟩ 7).localDb
          = ({ initialState with
            localDb := some ⟨⟨[⟨5, some 1, "t", "c", ⟨3, 4⟩⟩]⟩, false⟩
            isEditing := true
            currentEditId := some 5
            newPost := ⟨"x", "y"⟩ } : ViewState).localDb
        ∧ (updatePost { initialState with
            localDb := some ⟨⟨[⟨5, some 1, "t", "c", ⟨3, 4⟩⟩]⟩, false⟩
            isEditing := true
            currentEditId := some 5
            newPost := ⟨"x", "y"⟩ } ⟨some 5, "x", "y", ⟨99, 99⟩⟩ 7).posts
          = ({ initialState with
            localDb := some ⟨⟨[⟨5, some 1, "t", "c", ⟨3, 4⟩⟩]⟩, false⟩
            isEditing := true
            currentEditId := some 5
            newPost := ⟨"x", "y"⟩ } : ViewState).posts)) :=
  ⟨rfl, rfl, rfl,
    submit_while_editing_transitions
      { initialState with
        localDb := some ⟨⟨[⟨5, some 1, "t", "c", ⟨3, 4⟩⟩]⟩, false⟩
        isEditing := true
        currentEditId := some 5
        newPost := ⟨"x", "y"⟩ }
      ⟨⟨[⟨5, some 1, "t", "c", ⟨3, 4⟩⟩]⟩, false⟩ 5 ⟨some 5, "x", "y", ⟨99, 99⟩⟩ 7
      rfl rfl rfl⟩

/-! ### `validatePost` and `updatedDoc` computation lemmas -/

theorem validatePost_titleLong (p : Post)
    (ht : ¬ strTrim p.title = "") (hc : ¬ strTrim p.content = "")
    (hl : p.title.length > 100) :
    validatePost p = some "Le titre ne doit pas dépasser 100 caractères" := by
  rw [validatePost, if_neg (fun hor => hor.elim ht hc), if_pos hl]

theorem validatePost_contentLong (p : Post)
    (ht : ¬ strTrim p.title = "") (hc : ¬ strTrim p.content = "")
    (hlt : ¬ p.title.length > 100) (hl : p.content.length > 1000) :
    validatePost p = some "Le contenu ne doit pas dépasser 1000 caractères" := by
  rw [validatePost, if_neg (fun hor => hor.elim ht hc), if_neg hlt, if_pos hl]

theorem updatedDoc_title_of_ne (ex : Post) (pp : FormPayload) (now : Nat)
    (h : ¬ pp.title = "") : (updatedDoc ex pp now).title = pp.title := by
  rw [updatedDoc]
  dsimp only
  rw [if_neg h]

theorem updatedDoc_title_of_empty (ex : Post) (pp : FormPayload) (now : Nat)
    (h : pp.title = "") : (updatedDoc ex pp now).title = ex.title := by
  rw [updatedDoc]
  dsimp only
  rw [if_pos h]

theorem updatedDoc_content_of_ne (ex : Post) (pp : FormPayload) (now : Nat)
    (h : ¬ pp.content = "") : (updatedDoc ex pp now).content = pp.content := by
  rw [updatedDoc]
  dsimp only
  rw [if_neg h]

theorem updatedDoc_content_of_empty (ex : Post) (pp : FormPayload) (now : Nat)
    (h : pp.content = "") : (updatedDoc ex pp now).content = ex.content := by
  rw [updatedDoc]
  dsimp only
  rw [if_pos h]

/-! ### Claim C2: what validation actually rejects, per path -/

/-- C2 counterexample: submitting a post with an empty title on the create
path aborts silently — the whole state, error field included, is exactly as
before (`error = none`), contradicting the claim that validation sets a
user-visible error on every such submission. -/
theorem validation_empty_silent :
    addPost { initialState with
        localDb := some ⟨⟨[]⟩, false⟩
        newPost := ⟨"", "x"⟩ } 1 2 3
      = { initialState with
          localDb := some ⟨⟨[]⟩, false⟩
          newPost := ⟨"", "x"⟩ }
    ∧ (addPost { initialState with
        localDb := some ⟨⟨[]⟩, false⟩
        newPost := ⟨"", "x"⟩ } 1 2 3).error = none := by
  constructor <;> decide

/-- C2 (amended): on the create path, a submission whose title or content is
empty after trimming is rejected *silently* — the write is aborted and the
whole state (store included) is unchanged, but no error is set; a
submission whose fields are non-empty after trimming is length-checked on
the *trimmed* strings, and a violation sets the corresponding error and
aborts with the store and list untouched. On the update path the length
checks run on the *untrimmed* submitted strings — a title of raw length 101
(or content of raw length 1001) sets the error and aborts with the store
untouched — while empty submitted fields do not abort: they fall back to
the stored values and the write proceeds. -/
theorem validation_reject_behavior
    (sA : ViewState) (hA : LocalHandle) (tA1 tA2 tA3 : Nat)
    (hdbA : sA.localDb = some hA)
    (hempA : strTrim sA.newPost.title = "" ∨ strTrim sA.newPost.content = "")
    (sB : ViewState) (hB : LocalHandle) (tB1 tB2 tB3 : Nat)
    (hdbB : sB.localDb = some hB)
    (htB : ¬ strTrim sB.newPost.title = "") (hcB : ¬ strTrim sB.newPost.content = "")
    (hlB : (strTrim sB.newPost.title).length > 100)
    (sC : ViewState) (hC : LocalHandle) (tC1 tC2 tC3 : Nat)
    (hdbC : sC.localDb = some hC)
    (htC : ¬ strTrim sC.newPost.title = "") (hcC : ¬ strTrim sC.newPost.content = "")
    (hltC : ¬ (strTrim sC.newPost.title).length > 100)
    (hlC : (strTrim sC.newPost.content).length > 1000)
    (sD : ViewState) (hD : LocalHandle) (idD : Nat) (ppD : FormPayload) (nowD : Nat) (exD : Post)
    (hdbD : sD.localDb = some hD) (hidD : ppD._id = some idD)
    (hgetD : hD.db.get idD = .ok exD)
    (htD : ¬ strTrim ppD.title = "")
    (hcD : ¬ strTrim (updatedDoc exD ppD nowD).content = "")
    (hlD : ppD.title.length > 100)
    (sF : ViewState) (hF : LocalHandle) (idF : Nat) (ppF : FormPayload) (nowF : Nat) (exF : Post)
    (hdbF : sF.localDb = some hF) (hidF : ppF._id = some idF)
    (hgetF : hF.db.get idF = .ok exF)
    (htF : ¬ strTrim (updatedDoc exF ppF nowF).title = "")
    (hcF : ¬ strTrim ppF.content = "")
    (hltF : ¬ (updatedDoc exF ppF nowF).title.length > 100)
    (hlF : ppF.content.length > 1000)
    (sE : ViewState) (hE : LocalHandle) (idE : Nat) (ppE : FormPayload) (nowE : Nat) (exE : Post)
    (hdbE : sE.localDb = some hE) (hidE : ppE._id = some idE)
    (hgetE : hE.db.get idE = .ok exE)
    (hteE : ppE.title = "") (hceE : ppE.content = "")
    (hvalE : validatePost (updatedDoc exE ppE nowE) = none) :
    (addPost sA tA1 tA2 tA3 = sA)
    ∧ ((addPost sB tB1 tB2 tB3).error = some "Le titre ne doit pas dépasser 100 caractères"
        ∧ (addPost sB tB1 tB2 tB3).localDb = sB.localDb
        ∧ (addPost sB tB1 tB2 tB3).posts = sB.posts)
    ∧ ((addPost sC tC1 tC2 tC3).error = some "Le contenu ne doit pas dépasser 1000 caractères"
        ∧ (addPost sC tC1 tC2 tC3).localDb = sC.localDb
        ∧ (addPost sC tC1 tC2 tC3).posts = sC.posts)
    ∧ ((updatePost sD ppD nowD).error = some "Le titre ne doit pas dépasser 100 caractères"
        ∧ (updatePost sD ppD nowD).localDb = sD.localDb
        ∧ (updatePost sD ppD nowD).posts = sD.posts)
    ∧ ((updatePost sF ppF nowF).error = some "Le contenu ne doit pas dépasser 1000 caractères"
        ∧ (updatePost sF ppF nowF).localDb = sF.localDb
        ∧ (updatePost sF ppF nowF).posts = sF.posts)
    ∧ ((updatePost sE ppE nowE).error = none
        ∧ (updatePost sE ppE nowE).isEditing = false
        ∧ ∃ h' d, (updatePost sE ppE nowE).localDb = some h'
            ∧ h'.db.get idE = .ok d
            ∧ d.title = exE.title
            ∧ d.content = exE.content
            ∧ d.attributes.modified = nowE) := by
  refine ⟨?_, ?_, ?_, ?_, ?_, ?_⟩
  · exact addPost_empty_eq sA hA tA1 tA2 tA3 hdbA hempA
  · have hmsg : validatePost ⟨tB1, none, strTrim sB.newPost.title, strTrim sB.newPost.content,
        ⟨tB2, tB3⟩⟩ = some "Le titre ne doit pas dépasser 100 caractères" :=
      validatePost_titleLong _
        (fun hh => htB (by rwa [strTrim_idem] at hh))
        (fun hh => hcB (by rwa [strTrim_idem] at hh)) hlB
    rw [addPost_invalid_eq sB hB tB1 tB2 tB3 _ hdbB (fun hor => hor.elim htB hcB) hmsg]
    exact ⟨rfl, rfl, rfl⟩
  · have hmsg : validatePost ⟨tC1, none, strTrim sC.newPost.title, strTrim sC.newPost.content,
        ⟨tC2, tC3⟩⟩ = some "Le contenu ne doit pas dépasser 1000 caractères" :=
      validatePost_contentLong _
        (fun hh => htC (by rwa [strTrim_idem] at hh))
        (fun hh => hcC (by rwa [strTrim_idem] at hh)) hltC hlC
    rw [addPost_invalid_eq sC hC tC1 tC2 tC3 _ hdbC (fun hor => hor.elim htC hcC) hmsg]
    exact ⟨rfl, rfl, rfl⟩
  · have hneD : ¬ ppD.title = "" := fun hh => htD (by rw [hh]; decide)
    have htit : (updatedDoc exD ppD nowD).title = ppD.title :=
      updatedDoc_title_of_ne exD ppD nowD hneD
    have hval : validatePost (updatedDoc exD ppD nowD)
        = some "Le titre ne doit pas dépasser 100 caractères" :=
      validatePost_titleLong _ (by rwa [htit]) hcD (by rwa [htit])
    rw [updatePost_invalid_eq sD hD idD ppD nowD exD _ hdbD hidD hgetD hval]
    exact ⟨rfl, rfl, rfl⟩
  · have hneF : ¬ ppF.content = "" := fun hh => hcF (by rw [hh]; decide)
    have hcont : (updatedDoc exF ppF nowF).content = ppF.content :=
      updatedDoc_content_of_ne exF ppF nowF hneF
    have hval : validatePost (updatedDoc exF ppF nowF)
        = some "Le contenu ne doit pas dépasser 1000 caractères" :=
      validatePost_contentLong _ htF (by rwa [hcont]) hltF (by rwa [hcont])
    rw [updatePost_invalid_eq sF hF idF ppF nowF exF _ hdbF hidF hgetF hval]
    exact ⟨rfl, rfl, rfl⟩
  · rw [updatePost_success_eq sE hE idE ppE nowE exE hdbE hidE hgetE hvalE]
    refine ⟨rfl, rfl, _,
      { updatedDoc exE ppE nowE with _rev := some (exE._rev.getD 0 + 1) }, rfl, ?_, ?_, ?_, rfl⟩
    · rw [DB.get]
      dsimp only
      rw [find?_map_replace hE.db.docs idE exE
        { updatedDoc exE ppE nowE with _rev := some (exE._rev.getD 0 + 1) }
        (get_ok_find? hE.db idE exE hgetE) (get_ok_id hE.db idE exE hgetE)]
    · exact updatedDoc_title_of_empty exE ppE nowE hteE
    · exact updatedDoc_content_of_empty exE ppE nowE hceE

/-! ### Concrete fixtures for witnesses and counterexamples -/

/-- A fresh local handle over an empty store. -/
def dbEmptyH : LocalHandle := ⟨⟨[]⟩, false⟩

/-- A stored example document. -/
def exDoc : Post := ⟨5, some 1, "t", "c", ⟨3, 4⟩⟩

/-- A local handle whose store holds exactly `exDoc`. -/
def oneDocH : LocalHandle := ⟨⟨[exDoc]⟩, false⟩

/-- A title of raw length 101 with nothing to trim. -/
def tLong : String := "aaaaaaaaaaaaaaaaaaaaaaaaaaaaaaaaaaaaaaaaaaaaaaaaaaaaaaaaaaaaaaaaaaaaaaaaaaaaaaaaaaaaaaaaaaaaaaaaaaaaa"

/-- A content of raw length 1001 with nothing to trim. -/
def cLong : String := "bbbbbbbbbbbbbbbbbbbbbbbbbbbbbbbbbbbbbbbbbbbbbbbbbbbbbbbbbbbbbbbbbbbbbbbbbbbbbbbbbbbbbbbbbbbbbbbbbbbbbbbbbbbbbbbbbbbbbbbbbbbbbbbbbbbbbbbbbbbbbbbbbbbbbbbbbbbbbbbbbbbbbbbbbbbbbbbbbbbbbbbbbbbbbbbbbbbbbbbbbbbbbbbbbbbbbbbbbbbbbbbbbbbbbbbbbbbbbbbbbbbbbbbbbbbbbbbbbbbbbbbbbbbbbbbbbbbbbbbbbbbbbbbbbbbbbbbbbbbbbbbbbbbbbbbbbbbbbbbbbbbbbbbbbbbbbbbbbbbbbbbbbbbbbbbbbbbbbbbbbbbbbbbbbbbbbbbbbbbbbbbbbbbbbbbbbbbbbbbbbbbbbbbbbbbbbbbbbbbbbbbbbbbbbbbbbbbbbbbbbbbbbbbbbbbbbbbbbbbbbbbbbbbbbbbbbbbbbbbbbbbbbbbbbbbbbbbbbbbbbbbbbbbbbbbbbbbbbbbbbbbbbbbbbbbbbbbbbbbbbbbbbbbbbbbbbbbbbbbbbbbbbbbbbbbbbbbbbbbbbbbbbbbbbbbbbbbbbbbbbbbbbbbbbbbbbbbbbbbbbbbbbbbbbbbbbbbbbbbbbbbbbbbbbbbbbbbbbbbbbbbbbbbbbbbbbbbbbbbbbbbbbbbbbbbbbbbbbbbbbbbbbbbbbbbbbbbbbbbbbbbbbbbbbbbbbbbbbbbbbbbbbbbbbbbbbbbbbbbbbbbbbbbbbbbbbbbbbbbbbbbbbbbbbbbbbbbbbbbbbbbbbbbbbbbbbbbbbbbbbbbbbbbbbbbbbbbbbbbbbbbbbbbbbbbbbbbbbbbbbbbbbbbbbbbbbbbbbbbbbbbbbbbbbbbbbbbbbbbbbbbbbbbbbbbbbbbbbbbbbbbbbbbbbbbbbbbbbbbbbbbbbbbbbbbbbbbbbbbbbbbbbbbbbbbbbbbbbbbbbbbbbbbbbbbbbbbbbbbbb"

/-- Create form holding an empty title. -/
def sEmptyTitle : ViewState :=
  { initialState with localDb := some dbEmptyH, newPost := ⟨"", "x"⟩ }

/-- Create form holding the over-long title. -/
def sLongTitle : ViewState :=
  { initialState with localDb := some dbEmptyH, newPost := ⟨tLong, "x"⟩ }

/-- Create form holding the over-long content. -/
def sLongContent : ViewState :=
  { initialState with localDb := some dbEmptyH, newPost := ⟨"x", cLong⟩ }

/-- View over the one-document store. -/
def sOneDoc : ViewState := { initialState with localDb := some oneDocH }

/-- Edit payload with the over-long title. -/
def ppLongTitle : FormPayload := ⟨some 5, tLong, "y", ⟨0, 0⟩⟩

/-- Edit payload with the over-long content. -/
def ppLongContent : FormPayload := ⟨some 5, "y", cLong, ⟨0, 0⟩⟩

/-- Edit payload with both fields empty. -/
def ppEmpty : FormPayload := ⟨some 5, "", "", ⟨0, 0⟩⟩

theorem validation_reject_behavior_witness :
    (sEmptyTitle.localDb = some dbEmptyH)
    ∧ (strTrim sEmptyTitle.newPost.title = "" ∨ strTrim sEmptyTitle.newPost.content = "")
    ∧ (sLongTitle.localDb = some dbEmptyH)
    ∧ (¬ strTrim sLongTitle.newPost.title = "")
    ∧ (¬ strTrim sLongTitle.newPost.content = "")
    ∧ ((strTrim sLongTitle.newPost.title).length > 100)
    ∧ (sLongContent.localDb = some dbEmptyH)
    ∧ (¬ strTrim sLongContent.newPost.title = "")
    ∧ (¬ strTrim sLongContent.newPost.content = "")
    ∧ (¬ (strTrim sLongContent.newPost.title).length > 100)
    ∧ ((strTrim sLongContent.newPost.content).length > 1000)
    ∧ (sOneDoc.localDb = some oneDocH)
    ∧ (ppLongTitle._id = some 5)
    ∧ (oneDocH.db.get 5 = .ok exDoc)
    ∧ (¬ strTrim ppLongTitle.title = "")
    ∧ (¬ strTrim (updatedDoc exDoc ppLongTitle 7).content = "")
    ∧ (ppLongTitle.title.length > 100)
    ∧ (ppLongContent._id = some 5)
    ∧ (¬ strTrim (updatedDoc exDoc ppLongContent 7).title = "")
    ∧ (¬ strTrim ppLongContent.content = "")
    ∧ (¬ (updatedDoc exDoc ppLongContent 7).title.length > 100)
    ∧ (ppLongContent.content.length > 1000)
    ∧ (ppEmpty._id = some 5)
    ∧ (ppEmpty.title = "")
    ∧ (ppEmpty.content = "")
    ∧ (validatePost (updatedDoc exDoc ppEmpty 7) = none)
    ∧ ((addPost sEmptyTitle 1 2 3 = sEmptyTitle)
      ∧ ((addPost sLongTitle 1 2 3).error = some "Le titre ne doit pas dépasser 100 caractères"
          ∧ (addPost sLongTitle 1 2 3).localDb = sLongTitle.localDb
          ∧ (addPost sLongTitle 1 2 3).posts = sLongTitle.posts)
      ∧ ((addPost sLongContent 1 2 3).error
            = some "Le contenu ne doit pas dépasser 1000 caractères"
          ∧ (addPost sLongContent 1 2 3).localDb = sLongContent.localDb
          ∧ (addPost sLongContent 1 2 3).posts = sLongContent.posts)
      ∧ ((updatePost sOneDoc ppLongTitle 7).error
            = some "Le titre ne doit pas dépasser 100 caractères"
          ∧ (updatePost sOneDoc ppLongTitle 7).localDb = sOneDoc.localDb
          ∧ (updatePost sOneDoc ppLongTitle 7).posts = sOneDoc.posts)
      ∧ ((updatePost sOneDoc ppLongContent 7).error
            = some "Le contenu ne doit pas dépasser 1000 caractères"
          ∧ (updatePost sOneDoc ppLongContent 7).localDb = sOneDoc.localDb
          ∧ (updatePost sOneDoc ppLongContent 7).posts = sOneDoc.posts)
      ∧ ((updatePost sOneDoc ppEmpty 7).error = none
          ∧ (updatePost sOneDoc ppEmpty 7).isEditing = false
          ∧ ∃ h' d, (updatePost sOneDoc ppEmpty 7).localDb = some h'
              ∧ h'.db.get 5 = .ok d
              ∧ d.title = exDoc.title
              ∧ d.content = exDoc.content
              ∧ d.attributes.modified = 7)) :=
  ⟨rfl, by decide, rfl, by decide, by decide, by decide, rfl, by decide, by decide,
    by decide, by decide, rfl, rfl, by decide, by decide, by decide, by decide,
    rfl, by decide, by decide, by decide, by decide, rfl, rfl, rfl, by decide,
    validation_reject_behavior
      sEmptyTitle dbEmptyH 1 2 3 rfl (by decide)
      sLongTitle dbEmptyH 1 2 3 rfl (by decide) (by decide) (by decide)
      sLongContent dbEmptyH 1 2 3 rfl (by decide) (by decide) (by decide) (by decide)
      sOneDoc oneDocH 5 ppLongTitle 7 exDoc rfl rfl (by decide) (by decide) (by decide)
        (by decide)
      sOneDoc oneDocH 5 ppLongContent 7 exDoc rfl rfl (by decide) (by decide) (by decide)
        (by decide) (by decide)
      sOneDoc oneDocH 5 ppEmpty 7 exDoc rfl rfl (by decide) rfl rfl (by decide)⟩

/-! ### Claim C3: where trimming actually happens -/

/-- Edit payload with a padded title and empty content. -/
def ppPadded : FormPayload := ⟨some 5, " x ", "", ⟨9, 9⟩⟩

/-- C3 counterexample: an update whose submitted title is `" x "` stores the
title untrimmed — the fetched document's title is `" x "`, not its trimmed
form — contradicting the claim that every write stores trimmed values. -/
theorem update_stores_untrimmed :
    ∃ h' d, (updatePost sOneDoc ppPadded 7).localDb = some h'
      ∧ h'.db.get 5 = .ok d
      ∧ d.title = " x "
      ∧ ¬ d.title = strTrim d.title :=
  ⟨⟨⟨[⟨5, some 2, " x ", "c", ⟨3, 7⟩⟩]⟩, false⟩, ⟨5, some 2, " x ", "c", ⟨3, 7⟩⟩, by decide⟩

/-- C3 (amended): on the create path the length limits are measured on the
trimmed strings and the stored `title`/`content` are the trimmed values (the
raw lengths are unconstrained); on the update path the limits are measured
on the untrimmed submitted strings — a title whose raw length exceeds 100 is
rejected even when its trimmed length is within the limit — and a completed
update stores the submitted strings untrimmed. -/
theorem trim_create_vs_update
    (sA : ViewState) (hA : LocalHandle) (t1 t2 t3 : Nat)
    (hdbA : sA.localDb = some hA)
    (hfreshA : hA.db.docs.find? (fun q => q._id = t1) = none)
    (htA : ¬ strTrim sA.newPost.title = "") (hcA : ¬ strTrim sA.newPost.content = "")
    (htlA : (strTrim sA.newPost.title).length ≤ 100)
    (hclA : (strTrim sA.newPost.content).length ≤ 1000)
    (sB : ViewState) (hB : LocalHandle) (idB : Nat) (ppB : FormPayload) (nowB : Nat) (exB : Post)
    (hdbB : sB.localDb = some hB) (hidB : ppB._id = some idB)
    (hgetB : hB.db.get idB = .ok exB)
    (htB : ¬ ppB.title = "") (hcB : ¬ ppB.content = "")
    (hvalB : validatePost (updatedDoc exB ppB nowB) = none)
    (sC : ViewState) (hC : LocalHandle) (idC : Nat) (ppC : FormPayload) (nowC : Nat) (exC : Post)
    (hdbC : sC.localDb = some hC) (hidC : ppC._id = some idC)
    (hgetC : hC.db.get idC = .ok exC)
    (htC : ¬ strTrim ppC.title = "")
    (hcC : ¬ strTrim (updatedDoc exC ppC nowC).content = "")
    (hlC : ppC.title.length > 100)
    (hlC' : (strTrim ppC.title).length ≤ 100) :
    (∃ h' d, (addPost sA t1 t2 t3).localDb = some h'
      ∧ h'.db.get t1 = .ok d
      ∧ d.title = strTrim sA.newPost.title
      ∧ d.content = strTrim sA.newPost.content)
    ∧ (∃ h' d, (updatePost sB ppB nowB).localDb = some h'
      ∧ h'.db.get idB = .ok d
      ∧ d.title = ppB.title
      ∧ d.content = ppB.content)
    ∧ ((updatePost sC ppC nowC).error = some "Le titre ne doit pas dépasser 100 caractères"
      ∧ (updatePost sC ppC nowC).localDb = sC.localDb) := by
  refine ⟨?_, ?_, ?_⟩
  · rw [addPost_success_eq sA hA t1 t2 t3 hdbA hfreshA htA hcA (by omega) (by omega)]
    refine ⟨_, ⟨t1, some 1, strTrim sA.newPost.title, strTrim sA.newPost.content, ⟨t2, t3⟩⟩,
      rfl, ?_, rfl, rfl⟩
    rw [DB.get, List.find?_cons_of_pos _ (by simp)]
  · rw [updatePost_success_eq sB hB idB ppB nowB exB hdbB hidB hgetB hvalB]
    refine ⟨_, { updatedDoc exB ppB nowB with _rev := some (exB._rev.getD 0 + 1) },
      rfl, ?_, ?_, ?_⟩
    · rw [DB.get]
      dsimp only
      rw [find?_map_replace hB.db.docs idB exB
        { updatedDoc exB ppB nowB with _rev := some (exB._rev.getD 0 + 1) }
        (get_ok_find? hB.db idB exB hgetB) (get_ok_id hB.db idB exB hgetB)]
    · exact updatedDoc_title_of_ne exB ppB nowB htB
    · exact updatedDoc_content_of_ne exB ppB nowB hcB
  · have htit : (updatedDoc exC ppC nowC).title = ppC.title :=
      updatedDoc_title_of_ne exC ppC nowC (fun hh => htC (by rw [hh]; decide))
    have hval : validatePost (updatedDoc exC ppC nowC)
        = some "Le titre ne doit pas dépasser 100 caractères" :=
      validatePost_titleLong _ (by rwa [htit]) hcC (by rwa [htit])
    rw [updatePost_invalid_eq sC hC idC ppC nowC exC _ hdbC hidC hgetC hval]
    exact ⟨rfl, rfl⟩

/-- Create form with padded fields, trimmed well within the limits. -/
def sPadded : ViewState :=
  { initialState with localDb := some dbEmptyH, newPost := ⟨" Hi ", " W " ⟩ }

/-- Edit payload with padded non-empty fields. -/
def ppPadded2 : FormPayload := ⟨some 5, " x ", " y ", ⟨9, 9⟩⟩

/-- A title of raw length 101 whose trimmed length is 100. -/
def tPad : String := "aaaaaaaaaaaaaaaaaaaaaaaaaaaaaaaaaaaaaaaaaaaaaaaaaaaaaaaaaaaaaaaaaaaaaaaaaaaaaaaaaaaaaaaaaaaaaaaaaaaa "

/-- Edit payload whose title trims to within the limit but is rejected. -/
def ppPadLong : FormPayload := ⟨some 5, tPad, "y", ⟨9, 9⟩⟩

theorem trim_create_vs_update_witness :
    (sPadded.localDb = some dbEmptyH)
    ∧ (dbEmptyH.db.docs.find? (fun q => q._id = 10) = none)
    ∧ (¬ strTrim sPadded.newPost.title = "")
    ∧ (¬ strTrim sPadded.newPost.content = "")
    ∧ ((strTrim sPadded.newPost.title).length ≤ 100)
    ∧ ((strTrim sPadded.newPost.content).length ≤ 1000)
    ∧ (sOneDoc.localDb = some oneDocH)
    ∧ (ppPadded2._id = some 5)
    ∧ (oneDocH.db.get 5 = .ok exDoc)
    ∧ (¬ ppPadded2.title = "")
    ∧ (¬ ppPadded2.content = "")
    ∧ (validatePost (updatedDoc exDoc ppPadded2 7) = none)
    ∧ (ppPadLong._id = some 5)
    ∧ (¬ strTrim ppPadLong.title = "")
    ∧ (¬ strTrim (updatedDoc exDoc ppPadLong 7).content = "")
    ∧ (ppPadLong.title.length > 100)
    ∧ ((strTrim ppPadLong.title).length ≤ 100)
    ∧ ((∃ h' d, (addPost sPadded 10 20 21).localDb = some h'
        ∧ h'.db.get 10 = .ok d
        ∧ d.title = strTrim sPadded.newPost.title
        ∧ d.content = strTrim sPadded.newPost.content)
      ∧ (∃ h' d, (updatePost sOneDoc ppPadded2 7).localDb = some h'
        ∧ h'.db.get 5 = .ok d
        ∧ d.title = ppPadded2.title
        ∧ d.content = ppPadded2.content)
      ∧ ((updatePost sOneDoc ppPadLong 7).error
            = some "Le titre ne doit pas dépasser 100 caractères"
        ∧ (updatePost sOneDoc ppPadLong 7).localDb = sOneDoc.localDb)) :=
  ⟨rfl, by decide, by decide, by decide, by decide, by decide, rfl, rfl, by decide,
    by decide, by decide, by decide, rfl, by decide, by decide, by decide, by decide,
    trim_create_vs_update
      sPadded dbEmptyH 10 20 21 rfl (by decide) (by decide) (by decide) (by decide)
        (by decide)
      sOneDoc oneDocH 5 ppPadded2 7 exDoc rfl rfl (by decide) (by decide) (by decide)
        (by decide)
      sOneDoc oneDocH 5 ppPadLong 7 exDoc rfl rfl (by decide) (by decide) (by decide)
        (by decide) (by decide)⟩
